import Mathlib

/-!
Shallow embedding of the k8s-supervisor scaffolding tool
(pkg/buildpack/imagestream.go and the cmd-level setup code).

External effects (cluster queries, cluster creates, yaml decoding, the
`oc` binary, the working directory, CLI flag values) are modelled by an
environment record supplying their outcomes; the code itself is translated
statement by statement into pure functions that also produce a trace of
the observable events (log lines, cluster create calls, provisioning
steps) and an optional `Halt` recording `os.Exit`/`log.Fatalf`/`panic`.
-/

/-- Go struct `types.Image` (pkg/buildpack/types, declared outside src/; its fields
`Name`, `Repo`, `AnnotationCmds` are visible in the struct literal of
`CreateTypeImage`, imagestream.go lines 48-54). -/
structure Image where
  Name : String
  Repo : String
  AnnotationCmds : Bool
deriving DecidableEq

/-- Go struct `types.Application` (pkg/buildpack/types, declared outside src/; the
fields used by the code under src/ are `Name`, `Namespace` and `Image`:
imagestream.go lines 24, 40, 141, 220-237). -/
structure Application where
  Name : String
  Namespace : String
  Image : Image
deriving DecidableEq

/-- The zero value of `types.Application` (all fields zero-valued, as a Go
`types.Application{}`). -/
def zeroApplication : Application :=
  { Name := "", Namespace := "", Image := { Name := "", Repo := "", AnnotationCmds := false } }

/-- How a run ended prematurely: `log.Fatalf`/`os.Exit` carry the exit
code (always 1 here), `panic` is recorded separately. -/
inductive Halt where
  | exited (code : Nat)
  | panicked
deriving DecidableEq

/-- Observable events of a run, in program order. -/
inductive Ev where
  | logSkipImageStream (name : String)
  | renderImageStream (appCfg : Application)
  | createImageStream (ns : String) (name : String)
  | logUsingExistingDC (name : String)
  | logSettingUpDevPod
  | logUsingFlagName (name : String)
  | logUsingManifestName (name : String)
  | logUsingDirectoryName (name : String)
  | createDefaultImageStreams
  | createPVC (size : String)
  | createOrRetrieveDC
  | createService
  | createRoute
deriving DecidableEq

/-- Outcomes of the external calls made by `CreateImageStreamTemplate`
(imagestream.go lines 16-46). -/
structure ISEnv where
  /-- error returned by `imageclientsetv1.NewForConfig(config)` (line 17). -/
  newForConfigErr : Option String
  /-- result of `oc.Exists(kind, name)` (line 27): does an object of that kind and name exist. -/
  ocExists : String → String → Bool
  /-- error of `yaml.Unmarshal` on the template rendered from the given context (line 35). -/
  yamlUnmarshalErr : Application → Option String
  /-- error of `imageClient.ImageStreams(ns).Create` for the image stream of that name (line 40). -/
  createErr : String → Option String

/-- State threaded through the loop of `CreateImageStreamTemplate`:
`appConfig` is the callee's by-value parameter (never written), `appCfg`
the local copy of line 21 (whose `Image` field is reassigned each
iteration), plus the event trace and the halt status. -/
structure CISTState where
  appConfig : Application
  appCfg : Application
  trace : List Ev
  halt : Option Halt
deriving DecidableEq

/-- Body of one loop iteration of `CreateImageStreamTemplate` after the
`appCfg.Image = img` assignment (lines 26-44): `a` is the updated
`appCfg`, `ns` the namespace read from `appConfig` (line 40). -/
def cistBody (env : ISEnv) (ns : String) (a : Application) : List Ev × Option Halt :=
  if env.ocExists "imagestream" a.Image.Name then
    ([Ev.logSkipImageStream a.Image.Name], none)
  else
    match env.yamlUnmarshalErr a with
    | some _ => ([Ev.renderImageStream a], some Halt.panicked)
    | none =>
      match env.createErr a.Image.Name with
      | some _ =>
          ([Ev.renderImageStream a, Ev.createImageStream ns a.Image.Name], some (Halt.exited 1))
      | none =>
          ([Ev.renderImageStream a, Ev.createImageStream ns a.Image.Name], none)

/-- One iteration of the `for _, img := range images` loop (lines 22-45);
once halted (Fatalf or panic), nothing further executes. -/
def cistStep (env : ISEnv) (st : CISTState) (img : Image) : CISTState :=
  match st.halt with
  | some _ => st
  | none =>
    let a := { st.appCfg with Image := img }
    let r := cistBody env st.appConfig.Namespace a
    { st with appCfg := a, trace := st.trace ++ r.1, halt := r.2 }

/-- Function `CreateImageStreamTemplate` (imagestream.go lines 16-46). Lines 17-19
read `imageClient, err := imageclientsetv1.NewForConfig(config)` and then
`if err != nil { }` with an EMPTY body: the error is discarded and
execution falls through to the loop, so `env.newForConfigErr` is consulted
and dropped, exactly as the source does. Line 21 copies the by-value
parameter into the local `appCfg`. -/
def CreateImageStreamTemplate (env : ISEnv) (appConfig : Application) (images : List Image) :
    CISTState :=
  let _ := env.newForConfigErr
  images.foldl (cistStep env)
    { appConfig := appConfig, appCfg := appConfig, trace := [], halt := none }

/-- Function `CreateTypeImage` (imagestream.go lines 48-54). -/
def CreateTypeImage (name : String) (repo : String) (annotationCmd : Bool) : Image :=
  { Name := name, Repo := repo, AnnotationCmds := annotationCmd }

/-- A MANIFEST file as found (or not) in the working directory. -/
inductive ManifestFile where
  | absent
  | malformed
  | wellFormed (app : Application)
deriving DecidableEq

/-- Modelled from the spec: `buildpack.ParseManifest` is declared outside
src/ (only its caller `parseManifest`, lines 165-169, is present). Spec
section 4.1: "read a file path; on success return an Application value; on
missing/malformed file, either return a zero-value Application (when
absent) or fail with a parse error (when malformed)". -/
def ParseManifest (file : ManifestFile) : Except String Application :=
  match file with
  | ManifestFile.absent => Except.ok zeroApplication
  | ManifestFile.malformed => Except.error "parse error"
  | ManifestFile.wellFormed a => Except.ok a

/-- Function `checkError` (lines 114-124): on a non-nil error, print and
`os.Exit(1)`; on nil, do nothing. -/
def checkError (err : Option String) : Option Halt :=
  match err with
  | some _ => some (Halt.exited 1)
  | none => none

/-- Outcomes of the external calls made by `finishSetupAndSetApplicationName`
(lines 210-257): the label query, the CLI flag and working directory it
reads, and the halt status of each provisioning step (each of which is
fatal-on-error internally). -/
structure SetupEnv where
  /-- result of `oc.GetNamesByLabel("dc", OdoLabelName, OdoLabelValue)` (line 212). -/
  getNamesByLabelDC : Except String (List String)
  /-- value of the `--application` flag, bound to the package variable `appName` (lines 77, 100). -/
  appNameFlag : String
  /-- result of `path.Base(os.Getwd())` (lines 234-235). -/
  cwdBase : String
  /-- halt of `buildpack.CreateDefaultImageStreams` (line 242). -/
  createDefaultImageStreamsHalt : Option Halt
  /-- halt of `buildpack.CreatePVC` (line 246). -/
  createPVCHalt : Option Halt
  /-- halt of `buildpack.CreateOrRetrieveDeploymentConfig` (line 250). -/
  createOrRetrieveDCHalt : Option Halt
  /-- halt of `buildpack.CreateServiceTemplate` (line 253). -/
  createServiceHalt : Option Halt
  /-- halt of `buildpack.CreateRouteTemplate` (line 256). -/
  createRouteHalt : Option Halt

/-- Application-name resolution on the provision path (lines 225-238):
flag if non-empty, else the manifest-set name if non-empty, else the
basename of the working directory; each choice is logged. -/
def resolveName (flagName : String) (app : Application) (dirBase : String) :
    Application × List Ev :=
  if flagName.length > 0 then
    ({ app with Name := flagName }, [Ev.logUsingFlagName flagName])
  else if app.Name.length > 0 then
    (app, [Ev.logUsingManifestName app.Name])
  else
    ({ app with Name := dirBase }, [Ev.logUsingDirectoryName dirBase])

/-- Run one provisioning step: record its event, then adopt its halt
status; once halted, later steps do not execute (a `log.Fatalf` inside a
step kills the process). -/
def runStep (st : List Ev × Option Halt) (ev : Ev) (h : Option Halt) : List Ev × Option Halt :=
  match st.2 with
  | some _ => st
  | none => (st.1 ++ [ev], h)

/-- The five provisioning calls of the provision path, in source order
(lines 240-256). -/
def provisionSteps (env : SetupEnv) : List Ev × Option Halt :=
  let s1 := runStep ([], none) Ev.createDefaultImageStreams env.createDefaultImageStreamsHalt
  let s2 := runStep s1 (Ev.createPVC "1Gi") env.createPVCHalt
  let s3 := runStep s2 Ev.createOrRetrieveDC env.createOrRetrieveDCHalt
  let s4 := runStep s3 Ev.createService env.createServiceHalt
  let s5 := runStep s4 Ev.createRoute env.createRouteHalt
  s5

/-- Function `finishSetupAndSetApplicationName` (lines 210-257): query the cluster
for DeploymentConfigs labeled with the odo label; on query error,
`log.Fatalf` (exit 1); if any exist, take the first one's name and stop
(reuse path); otherwise resolve the application name and run the five
provisioning steps (provision path). Returns the updated application, the
trace and the halt status. -/
def finishSetupAndSetApplicationName (env : SetupEnv) (app : Application) :
    Application × List Ev × Option Halt :=
  match env.getNamesByLabelDC with
  | Except.error _ => (app, [], some (Halt.exited 1))
  | Except.ok existingDCs =>
    match existingDCs with
    | dcName :: _ =>
        ({ app with Name := dcName }, [Ev.logUsingExistingDC dcName], none)
    | [] =>
        let r := resolveName env.appNameFlag app env.cwdBase
        let st := provisionSteps env
        (r.1, Ev.logSettingUpDevPod :: (r.2 ++ st.1), st.2)

/-- Outcomes of the external calls made by `Setup` (lines 126-150). -/
structure AppEnv where
  /-- the MANIFEST file in the working directory (lines 130, 165-169). -/
  manifestFile : ManifestFile
  /-- value of the `--kubeconfig` flag (line 174). -/
  kubeconfigFlag : String
  /-- result of `config.HomeKubePath()` (line 176). -/
  homeKubePath : String
  /-- result of `oc.ExecCommandAndReturn` for `project -q <namespace>` (line 136). -/
  projectCmdResult : Except String String
  /-- error of `clientcmd.BuildConfigFromFlags` (line 203). -/
  buildConfigFromFlagsErr : Option String
  /-- error of `kubernetes.NewForConfig` (line 193). -/
  newForConfigK8sErr : Option String
  /-- environment of `finishSetupAndSetApplicationName` (line 147). -/
  setupEnv : SetupEnv

/-- Function `getK8Config` (lines 171-182): the flag value if set, else the default
home kubeconfig path. -/
def getK8Config (env : AppEnv) : String :=
  if env.kubeconfigFlag = "" then env.homeKubePath else env.kubeconfigFlag

/-- The `config.Tool` fields relevant to the embedded code. -/
structure Tool where
  application : Application
  kubeConfigPath : String
deriving DecidableEq

/-- Function `Setup` (lines 126-150): parse the MANIFEST, resolve the kubeconfig
path, run `oc project -q <namespace>` and overwrite the application's
namespace with its output (line 141), build the rest config and clientset
(each fatal on error), then finish via
`finishSetupAndSetApplicationName`. Returns `some tool` when the process
did not exit, together with the halt status. -/
def Setup (env : AppEnv) : Option Tool × Option Halt :=
  match ParseManifest env.manifestFile with
  | Except.error _ => (none, some (Halt.exited 1))
  | Except.ok app0 =>
    let kubeConfigPath := getK8Config env
    match env.projectCmdResult with
    | Except.error _ => (none, some (Halt.exited 1))
    | Except.ok currentNs =>
      let app1 := { app0 with Namespace := currentNs }
      match env.buildConfigFromFlagsErr with
      | some _ => (none, some (Halt.exited 1))
      | none =>
        match env.newForConfigK8sErr with
        | some _ => (none, some (Halt.exited 1))
        | none =>
          let r := finishSetupAndSetApplicationName env.setupEnv app1
          match r.2.2 with
          | some h => (none, some h)
          | none => (some { application := r.1, kubeConfigPath := kubeConfigPath }, none)

/-- Predicate selecting the five provisioning operations of the provision
path (lines 240-256). -/
def isProvisionEv : Ev → Bool
  | Ev.createDefaultImageStreams => true
  | Ev.createPVC _ => true
  | Ev.createOrRetrieveDC => true
  | Ev.createService => true
  | Ev.createRoute => true
  | _ => false

/-- The fixed source order of the provisioning steps (lines 240-256). -/
def provisionOrder : List Ev :=
  [Ev.createDefaultImageStreams, Ev.createPVC "1Gi", Ev.createOrRetrieveDC,
   Ev.createService, Ev.createRoute]

/-- The caller's variables at a call site of `CreateImageStreamTemplate`.
Go passes the `types.Application` struct and the slice header by value
(line 16), so a call returns the caller's frame unchanged alongside the
callee's result. -/
structure CallerFrame where
  appConfig : Application
  images : List Image
deriving DecidableEq

/-- A call to `CreateImageStreamTemplate` as seen from the caller: the
frame is passed by value and returned untouched next to the callee's
result. -/
def callCreateImageStreamTemplate (env : ISEnv) (fr : CallerFrame) :
    CallerFrame × CISTState :=
  (fr, CreateImageStreamTemplate env fr.appConfig fr.images)

/-- Concrete run for C5: `NewForConfig` fails, no ImageStream exists, yaml
decoding and creation succeed. -/
def c5Env : ISEnv :=
  { newForConfigErr := some "connection refused"
    ocExists := fun _ _ => false
    yamlUnmarshalErr := fun _ => none
    createErr := fun _ => none }

/-- Concrete application for C5. -/
def c5App : Application := { zeroApplication with Name := "demo", Namespace := "team" }

/-- Concrete image for C5. -/
def c5Image : Image :=
  CreateTypeImage "copy-supervisord" "docker.io/cmoulliard/copy-supervisord" true

/-- Concrete setup environment for the C1 witness: no labeled
DeploymentConfig, flag set, manifest name set. -/
def w1Env : SetupEnv :=
  { getNamesByLabelDC := Except.ok []
    appNameFlag := "cli-app"
    cwdBase := "spring-boot"
    createDefaultImageStreamsHalt := none
    createPVCHalt := none
    createOrRetrieveDCHalt := none
    createServiceHalt := none
    createRouteHalt := none }

/-- Concrete application for the C1 witness. -/
def w1App : Application := { zeroApplication with Name := "manifest-app" }

/-- Concrete environment for the C2 witness: the first image's
ImageStream exists, the second one's does not. -/
def w2Env : ISEnv :=
  { newForConfigErr := none
    ocExists := fun _ n => n == "copy-supervisord"
    yamlUnmarshalErr := fun _ => none
    createErr := fun _ => none }

/-- Concrete application for the C2 witness. -/
def w2App : Application := { zeroApplication with Namespace := "demo" }

/-- Concrete image list for the C2 witness. -/
def w2Images : List Image :=
  [CreateTypeImage "copy-supervisord" "docker.io/cmoulliard/copy-supervisord" true,
   CreateTypeImage "spring-boot-http" "quay.io/snowdrop/spring-boot-s2i" false]

/-- Concrete setup environment for the C3 witness: one labeled
DeploymentConfig exists. -/
def w3Env : SetupEnv :=
  { w1Env with getNamesByLabelDC := Except.ok ["existing-dc", "other-dc"] }

/-- Concrete environment for the C7 witness: no ImageStream exists, so the
single image is rendered. -/
def w7Env : ISEnv :=
  { newForConfigErr := none
    ocExists := fun _ _ => false
    yamlUnmarshalErr := fun _ => none
    createErr := fun _ => none }

/-- Concrete application for the C7 witness. -/
def w7App : Application := { zeroApplication with Name := "app7", Namespace := "ns7" }

/-- Concrete image for the C7 witness. -/
def w7Image : Image := CreateTypeImage "spring-boot-http" "quay.io/snowdrop/spring-boot-s2i" false

/-- The rendering context produced for `w7Image` inside the loop. -/
def w7Ctx : Application := { w7App with Image := w7Image }

/-- Concrete environment for the C9 witness: manifest present with a
namespace that the project command output then overwrites. -/
def w9Env : AppEnv :=
  { manifestFile := ManifestFile.wellFormed
      { zeroApplication with Name := "manifest-app", Namespace := "manifest-ns" }
    kubeconfigFlag := ""
    homeKubePath := "/home/dev/.kube/config"
    projectCmdResult := Except.ok "team-ns"
    buildConfigFromFlagsErr := none
    newForConfigK8sErr := none
    setupEnv := { w1Env with getNamesByLabelDC := Except.ok ["dc1"] } }

/-- The tool value `Setup` produces on `w9Env`. -/
def w9Tool : Tool :=
  { application :=
      { Name := "dc1", Namespace := "team-ns"
        Image := { Name := "", Repo := "", AnnotationCmds := false } }
    kubeConfigPath := "/home/dev/.kube/config" }

lemma cistStep_appConfig (env : ISEnv) (st : CISTState) (img : Image) :
    (cistStep env st img).appConfig = st.appConfig := by
  rcases st with ⟨ac, cfg, tr, h⟩
  cases h <;> rfl

lemma foldl_cistStep_appConfig (env : ISEnv) (imgs : List Image) :
    ∀ st : CISTState, (List.foldl (cistStep env) st imgs).appConfig = st.appConfig := by
  induction imgs with
  | nil => intro st; rfl
  | cons i t ih => intro st; rw [List.foldl_cons, ih, cistStep_appConfig]

lemma cistStep_trace_mem (env : ISEnv) (st : CISTState) (img : Image) (ev : Ev)
    (h : ev ∈ (cistStep env st img).trace) :
    ev ∈ st.trace ∨
      ev ∈ (cistBody env st.appConfig.Namespace { st.appCfg with Image := img }).1 := by
  rcases st with ⟨ac, cfg, tr, hh⟩
  cases hh with
  | none =>
    simp only [cistStep] at h
    exact List.mem_append.mp h
  | some h0 => exact Or.inl h

lemma foldl_cistStep_trace_mem (env : ISEnv) (imgs : List Image) :
    ∀ (st : CISTState) (ev : Ev),
      ev ∈ (List.foldl (cistStep env) st imgs).trace →
      ev ∈ st.trace ∨
        ∃ a : Application, a.Image ∈ imgs ∧
          ev ∈ (cistBody env st.appConfig.Namespace a).1 := by
  induction imgs with
  | nil => intro st ev h; exact Or.inl h
  | cons i t ih =>
    intro st ev h
    rw [List.foldl_cons] at h
    rcases ih (cistStep env st i) ev h with h1 | ⟨a, ha, hb⟩
    · rcases cistStep_trace_mem env st i ev h1 with h2 | h2
      · exact Or.inl h2
      · exact Or.inr ⟨{ st.appCfg with Image := i }, by simp, h2⟩
    · refine Or.inr ⟨a, List.mem_cons_of_mem _ ha, ?_⟩
      rwa [cistStep_appConfig] at hb

lemma cistBody_mem (env : ISEnv) (ns : String) (a : Application) (ev : Ev)
    (h : ev ∈ (cistBody env ns a).1) :
    (env.ocExists "imagestream" a.Image.Name = true ∧
        ev = Ev.logSkipImageStream a.Image.Name) ∨
    (env.ocExists "imagestream" a.Image.Name = false ∧
        (ev = Ev.renderImageStream a ∨ ev = Ev.createImageStream ns a.Image.Name)) := by
  rcases hex : env.ocExists "imagestream" a.Image.Name with _ | _
  · rcases hy : env.yamlUnmarshalErr a with _ | e
    · rcases hc : env.createErr a.Image.Name with _ | e2
      · simp only [cistBody, hex, hy, hc] at h
        simp at h
        exact Or.inr ⟨rfl, h⟩
      · simp only [cistBody, hex, hy, hc] at h
        simp at h
        exact Or.inr ⟨rfl, h⟩
    · simp only [cistBody, hex, hy] at h
      simp at h
      exact Or.inr ⟨rfl, Or.inl h⟩
  · simp only [cistBody, hex] at h
    simp at h
    exact Or.inl ⟨rfl, h⟩

lemma cistStep_all_exist (env : ISEnv) (st : CISTState) (i : Image)
    (hh : st.halt = none) (hex : env.ocExists "imagestream" i.Name = true) :
    cistStep env st i =
      { st with appCfg := { st.appCfg with Image := i }
                trace := st.trace ++ [Ev.logSkipImageStream i.Name]
                halt := none } := by
  rcases st with ⟨ac, cfg, tr, h0⟩
  cases h0 with
  | none => simp [cistStep, cistBody, hex]
  | some h1 => simp at hh

lemma foldl_cistStep_all_exist (env : ISEnv) (imgs : List Image) :
    ∀ st : CISTState, st.halt = none →
      (∀ img ∈ imgs, env.ocExists "imagestream" img.Name = true) →
      (List.foldl (cistStep env) st imgs).trace
          = st.trace ++ imgs.map (fun i => Ev.logSkipImageStream i.Name) ∧
      (List.foldl (cistStep env) st imgs).halt = none := by
  induction imgs with
  | nil => intro st hh _; exact ⟨by simp, hh⟩
  | cons i t ih =>
    intro st hh hall
    have hex : env.ocExists "imagestream" i.Name = true := hall i (List.mem_cons_self i t)
    rw [List.foldl_cons, cistStep_all_exist env st i hh hex]
    have hrest := ih { st with appCfg := { st.appCfg with Image := i }
                               trace := st.trace ++ [Ev.logSkipImageStream i.Name]
                               halt := none }
      rfl (fun img hm => hall img (List.mem_cons_of_mem _ hm))
    rcases hrest with ⟨h1, h2⟩
    refine ⟨?_, h2⟩
    rw [h1]
    simp

lemma resolveName_namespace (f : String) (app : Application) (d : String) :
    (resolveName f app d).1.Namespace = app.Namespace := by
  unfold resolveName
  split_ifs <;> rfl

lemma resolveName_filter (f : String) (app : Application) (d : String) :
    ((resolveName f app d).2).filter isProvisionEv = [] := by
  unfold resolveName
  split_ifs <;> simp [isProvisionEv]

lemma finishSetup_namespace (env : SetupEnv) (app : Application) :
    ((finishSetupAndSetApplicationName env app).1).Namespace = app.Namespace := by
  unfold finishSetupAndSetApplicationName
  rcases env.getNamesByLabelDC with e | dcs
  · rfl
  · cases dcs with
    | nil => exact resolveName_namespace _ _ _
    | cons d t => rfl

lemma provisionSteps_spec (env : SetupEnv) :
    ((provisionSteps env).1.filter isProvisionEv <+: provisionOrder) ∧
    (env.createDefaultImageStreamsHalt = none → env.createPVCHalt = none →
     env.createOrRetrieveDCHalt = none → env.createServiceHalt = none →
     env.createRouteHalt = none →
      (provisionSteps env).1.filter isProvisionEv = provisionOrder) := by
  rcases env with ⟨dcr, flag, cwd, s1, s2, s3, s4, s5⟩
  cases s1 <;> cases s2 <;> cases s3 <;> cases s4 <;> cases s5 <;>
    simp [provisionSteps, runStep, provisionOrder, isProvisionEv]

/-- C6: the manifest parser returns an Application on success; an absent
file yields the zero-value Application rather than a crash; a malformed
file fails with a parse error. -/
theorem C6_manifest_contract :
    ParseManifest ManifestFile.absent = Except.ok zeroApplication ∧
    (∀ a : Application, ParseManifest (ManifestFile.wellFormed a) = Except.ok a) ∧
    (∃ e : String, ParseManifest ManifestFile.malformed = Except.error e) :=
  ⟨rfl, fun _ => rfl, ⟨"parse error", rfl⟩⟩

/-- C8: when more than one DeploymentConfig carries the odo label, the
reuse path takes the application name from the first element of the list
returned by the label query, and the whole outcome is the same as if only
that first element had been returned. -/
theorem C8_first_labeled_dc_wins (env : SetupEnv) (d : String) (rest : List String)
    (app : Application) :
    (finishSetupAndSetApplicationName
        { env with getNamesByLabelDC := Except.ok (d :: rest) } app).1.Name = d ∧
    finishSetupAndSetApplicationName
        { env with getNamesByLabelDC := Except.ok (d :: rest) } app
      = finishSetupAndSetApplicationName
          { env with getNamesByLabelDC := Except.ok [d] } app :=
  ⟨rfl, rfl⟩

/-- C10: `CreateImageStreamTemplate` never modifies the caller's
Application or Image arguments: the caller's frame is returned unchanged,
and even the callee's own by-value `appConfig` parameter is untouched by
the loop (only the local copy `appCfg` is reassigned). -/
theorem C10_no_caller_mutation (env : ISEnv) (fr : CallerFrame) :
    (callCreateImageStreamTemplate env fr).1 = fr ∧
    (CreateImageStreamTemplate env fr.appConfig fr.images).appConfig = fr.appConfig :=
  ⟨rfl, foldl_cistStep_appConfig env fr.images _⟩

/-- C5: the claim says an error from building the image clientset in
`CreateImageStreamTemplate` terminates the process. The code's check
(line 18, `if err != nil { }`) has an empty body, so at the concrete
failing input `c5Env` the run does not halt, still issues the ImageStream
create call, and behaves exactly as if no error had occurred — while the
generic `checkError` path does exit with code 1 on any error, which is the
fail-fast behaviour the claim expects here. -/
theorem C5_clientset_error_is_ignored :
    (CreateImageStreamTemplate c5Env c5App [c5Image]).halt = none ∧
    Ev.createImageStream "team" "copy-supervisord"
        ∈ (CreateImageStreamTemplate c5Env c5App [c5Image]).trace ∧
    CreateImageStreamTemplate c5Env c5App [c5Image]
      = CreateImageStreamTemplate { c5Env with newForConfigErr := none } c5App [c5Image] ∧
    checkError (some "connection refused") = some (Halt.exited 1) := by
  refine ⟨rfl, ?_, rfl, rfl⟩
  decide

/-- C7: an Image is immutable once constructed: `CreateTypeImage` returns
exactly the record of its arguments, and every rendering context produced
by the loop of `CreateImageStreamTemplate` carries one of the input Image
values unchanged — assignments only replace which Image the Application
refers to. -/
theorem C7_image_immutable :
    (∀ (n r : String) (b : Bool),
        CreateTypeImage n r b = { Name := n, Repo := r, AnnotationCmds := b }) ∧
    (∀ (env : ISEnv) (appConfig : Application) (images : List Image) (a : Application),
        Ev.renderImageStream a ∈ (CreateImageStreamTemplate env appConfig images).trace →
        a.Image ∈ images) := by
  refine ⟨fun _ _ _ => rfl, fun env appConfig images a h => ?_⟩
  rcases foldl_cistStep_trace_mem env images _ _ h with h1 | ⟨a2, ha2, hb⟩
  · simp at h1
  · rcases cistBody_mem env _ a2 _ hb with ⟨_, heq⟩ | ⟨_, heq | heq⟩
    · simp at heq
    · rw [Ev.renderImageStream.injEq] at heq
      rw [heq]
      exact ha2
    · simp at heq

/-- Witness for C7 at a concrete input: the rendering context `w7Ctx`
appears in the trace, and the theorem yields that its Image is one of the
inputs. -/
theorem C7_image_immutable_witness : w7Ctx.Image ∈ [w7Image] :=
  C7_image_immutable.2 w7Env w7App [w7Image] w7Ctx (by decide)

/-- C2: `CreateImageStreamTemplate` is idempotent with respect to existing
ImageStreams: no create call is ever issued for a name whose ImageStream
already exists; every create call issued is for the name of an input image
whose ImageStream is absent; and when every input image's ImageStream
already exists the whole run is a logged no-op (skip log lines only, no
halt). -/
theorem C2_imagestream_creation_idempotent (env : ISEnv) (appConfig : Application)
    (images : List Image) :
    (∀ ns n : String, env.ocExists "imagestream" n = true →
        Ev.createImageStream ns n ∉ (CreateImageStreamTemplate env appConfig images).trace) ∧
    (∀ ns n : String,
        Ev.createImageStream ns n ∈ (CreateImageStreamTemplate env appConfig images).trace →
        env.ocExists "imagestream" n = false ∧ ∃ img ∈ images, img.Name = n) ∧
    ((∀ img ∈ images, env.ocExists "imagestream" img.Name = true) →
        (CreateImageStreamTemplate env appConfig images).trace
            = images.map (fun i => Ev.logSkipImageStream i.Name) ∧
        (CreateImageStreamTemplate env appConfig images).halt = none) := by
  have key : ∀ ns n : String,
      Ev.createImageStream ns n ∈ (CreateImageStreamTemplate env appConfig images).trace →
      env.ocExists "imagestream" n = false ∧ ∃ img ∈ images, img.Name = n := by
    intro ns n h
    rcases foldl_cistStep_trace_mem env images _ _ h with h1 | ⟨a, ha, hb⟩
    · simp at h1
    · rcases cistBody_mem env _ a _ hb with ⟨_, heq⟩ | ⟨hex, heq | heq⟩
      · simp at heq
      · simp at heq
      · rw [Ev.createImageStream.injEq] at heq
        exact ⟨heq.2 ▸ hex, ⟨a.Image, ha, heq.2.symm⟩⟩
  refine ⟨?_, key, ?_⟩
  · intro ns n hex h
    rcases key ns n h with ⟨hfalse, _⟩
    rw [hex] at hfalse
    exact absurd hfalse (by simp)
  · intro hall
    exact foldl_cistStep_all_exist env images _ rfl hall

/-- Witness for C2 at a concrete input: the existing image's ImageStream
is not re-created, and the create call that does appear is for an absent
input image. -/
theorem C2_imagestream_creation_idempotent_witness :
    (Ev.createImageStream "demo" "copy-supervisord"
        ∉ (CreateImageStreamTemplate w2Env w2App w2Images).trace) ∧
    (w2Env.ocExists "imagestream" "spring-boot-http" = false ∧
        ∃ img ∈ w2Images, img.Name = "spring-boot-http") :=
  ⟨(C2_imagestream_creation_idempotent w2Env w2App w2Images).1 "demo" "copy-supervisord"
      (by decide),
   (C2_imagestream_creation_idempotent w2Env w2App w2Images).2.1 "demo" "spring-boot-http"
      (by decide)⟩

/-- C1: on the provision path (no labeled DeploymentConfig found) the
application name is resolved with strict priority: a non-empty
`--application` flag wins; otherwise a non-empty manifest-set name is
kept; otherwise the basename of the working directory is used. -/
theorem C1_application_name_priority (env : SetupEnv) (app : Application)
    (hdc : env.getNamesByLabelDC = Except.ok []) :
    (env.appNameFlag.length > 0 →
        (finishSetupAndSetApplicationName env app).1.Name = env.appNameFlag) ∧
    (env.appNameFlag.length = 0 → app.Name.length > 0 →
        (finishSetupAndSetApplicationName env app).1.Name = app.Name) ∧
    (env.appNameFlag.length = 0 → app.Name.length = 0 →
        (finishSetupAndSetApplicationName env app).1.Name = env.cwdBase) := by
  refine ⟨?_, ?_, ?_⟩
  · intro hflag
    simp [finishSetupAndSetApplicationName, hdc, resolveName, hflag]
  · intro hflag hname
    simp [finishSetupAndSetApplicationName, hdc, resolveName, hflag, hname]
  · intro hflag hname
    simp [finishSetupAndSetApplicationName, hdc, resolveName, hflag, hname]

/-- Witness for C1 at a concrete input: with both the flag and a manifest
name set, the flag value wins. -/
theorem C1_application_name_priority_witness :
    (finishSetupAndSetApplicationName w1Env w1App).1.Name = w1Env.appNameFlag :=
  (C1_application_name_priority w1Env w1App rfl).1 (by decide)

/-- C3: when at least one DeploymentConfig carries the odo label, the
reuse path is taken: the application name is the first labeled
DeploymentConfig's name, no provisioning operation appears in the trace,
and the run does not halt. -/
theorem C3_reuse_path_no_provisioning (env : SetupEnv) (app : Application)
    (d : String) (rest : List String)
    (hdc : env.getNamesByLabelDC = Except.ok (d :: rest)) :
    (finishSetupAndSetApplicationName env app).1.Name = d ∧
    ((finishSetupAndSetApplicationName env app).2.1).filter isProvisionEv = [] ∧
    (finishSetupAndSetApplicationName env app).2.2 = none := by
  simp [finishSetupAndSetApplicationName, hdc, isProvisionEv]

/-- Witness for C3 at a concrete input: the name of the first labeled
DeploymentConfig is reused and nothing is provisioned. -/
theorem C3_reuse_path_no_provisioning_witness :
    (finishSetupAndSetApplicationName w3Env w1App).1.Name = "existing-dc" ∧
    ((finishSetupAndSetApplicationName w3Env w1App).2.1).filter isProvisionEv = [] ∧
    (finishSetupAndSetApplicationName w3Env w1App).2.2 = none :=
  C3_reuse_path_no_provisioning w3Env w1App "existing-dc" ["other-dc"] rfl

lemma finishSetup_provision_filter (env : SetupEnv) (app : Application)
    (hdc : env.getNamesByLabelDC = Except.ok []) :
    ((finishSetupAndSetApplicationName env app).2.1).filter isProvisionEv
      = ((provisionSteps env).1).filter isProvisionEv := by
  simp only [finishSetupAndSetApplicationName, hdc]
  rw [List.filter_cons, List.filter_append, resolveName_filter]
  simp [isProvisionEv]

/-- C4: on the provision path the provisioning steps run in the fixed
source order ImageStreams, PVC, DeploymentConfig, Service, Route: the
provisioning events of the trace always form a prefix of that order (so a
Service or Route creation never precedes the DeploymentConfig step), and
when no step halts, all five appear in exactly that order. -/
theorem C4_provision_order (env : SetupEnv) (app : Application)
    (hdc : env.getNamesByLabelDC = Except.ok []) :
    (((finishSetupAndSetApplicationName env app).2.1).filter isProvisionEv <+: provisionOrder) ∧
    (env.createDefaultImageStreamsHalt = none → env.createPVCHalt = none →
     env.createOrRetrieveDCHalt = none → env.createServiceHalt = none →
     env.createRouteHalt = none →
      ((finishSetupAndSetApplicationName env app).2.1).filter isProvisionEv = provisionOrder) := by
  rw [finishSetup_provision_filter env app hdc]
  exact provisionSteps_spec env

/-- Witness for C4 at a concrete input: with no labeled DeploymentConfig
and no step failing, the trace's provisioning events are exactly the five
steps in source order. -/
theorem C4_provision_order_witness :
    ((finishSetupAndSetApplicationName w1Env w1App).2.1).filter isProvisionEv
      = provisionOrder :=
  (C4_provision_order w1Env w1App rfl).2 rfl rfl rfl rfl rfl

/-- C9: `Setup` unconditionally overwrites the application's namespace
with the output of the cluster project command, so whenever `Setup`
returns a tool, its namespace is the project command's output — any
namespace value read from the MANIFEST never survives setup. -/
theorem C9_namespace_overwritten (env : AppEnv) (ns : String) (tool : Tool)
    (hns : env.projectCmdResult = Except.ok ns)
    (hres : (Setup env).1 = some tool) :
    tool.application.Namespace = ns := by
  unfold Setup at hres
  rcases hm : ParseManifest env.manifestFile with e | a0 <;> rw [hm] at hres
  · simp at hres
  · rw [hns] at hres
    rcases hb : env.buildConfigFromFlagsErr with _ | e1 <;> rw [hb] at hres
    · rcases hk : env.newForConfigK8sErr with _ | e2 <;> rw [hk] at hres
      · simp only [] at hres
        rcases hf : (finishSetupAndSetApplicationName env.setupEnv
            { a0 with Namespace := ns }).2.2 with _ | h <;> rw [hf] at hres
        · simp at hres
          rw [← hres]
          exact finishSetup_namespace env.setupEnv { a0 with Namespace := ns }
        · simp at hres
      · simp at hres
    · simp at hres

/-- Witness for C9 at a concrete input: the manifest sets namespace
`manifest-ns`, the project command returns `team-ns`, and the returned
tool carries `team-ns`. -/
theorem C9_namespace_overwritten_witness : w9Tool.application.Namespace = "team-ns" :=
  C9_namespace_overwritten w9Env "team-ns" w9Tool rfl (by decide)
